import Mathlib

/-!
Verification development for the adam-mcp working-file transaction manager and
operation dispatch pipeline.

The definitions below are a shallow embedding of the Python sources under
src/src/adam_mcp/.  The external CAD kernel (FreeCAD) is treated as a
collaborator: attributes it chooses for objects (structural state, shape
validity, recompute outcomes) are explicit inputs of the model (a
KernelEffect value), never invented by the embedding.  File contents are
modelled as the kernel documents they serialize, so byte-for-byte equality of
two files is equality of the stored document values.  Python exceptions are
modelled with Except; OS path canonicalization (expanduser/resolve) on the
session layer is modelled as the identity on already-canonical path strings,
while the path-shape claims use an explicit component model further below.
-/

/-- Result of the kernel call obj.Shape.isValid() seen through the attribute
checks of utils/validation.py: the object may have no (or a falsy) Shape
attribute, the call may raise, or it returns a boolean. -/
inductive ShapeState where
  | absent : ShapeState
  | isValidRaises : ShapeState
  | isValidTrue : ShapeState
  | isValidFalse : ShapeState
deriving DecidableEq, BEq

/-- A kernel document object as inspected by the validation and handler code:
its name, whether it is a sketch (has an addGeometry attribute), whether its
State reports Invalid, its shape-validity behaviour, and how many geometry
elements have been added to it (sketches). -/
structure KObj where
  name : String
  isSketch : Bool
  stateInvalid : Bool
  shape : ShapeState
  geomCount : Nat
deriving DecidableEq, BEq

/-- A kernel document: its object list in insertion order and whether a
recompute() call on it currently raises. -/
structure KDoc where
  objects : List KObj
  recomputeRaises : Bool
deriving DecidableEq, BEq

/-- doc.getObject(name): first object with the given name, none otherwise. -/
def KDoc.getObject (d : KDoc) (n : String) : Option KObj :=
  d.objects.find? (fun o => o.name == n)

/-- Outcome of the per-object checks inside validate_document: the object
passes, fails a check (early return False), or a kernel call raises. -/
inductive ObjCheck where
  | pass : ObjCheck
  | fail : ObjCheck
  | exn : ObjCheck
deriving DecidableEq, BEq

/-- The body of the per-object loop of validate_document
(utils/validation.py lines 55 to 64): an Invalid State fails; otherwise a
shape whose isValid() raises is an exception, isValid() false fails,
everything else passes. -/
def objCheck (o : KObj) : ObjCheck :=
  if o.stateInvalid then .fail
  else
    match o.shape with
    | .absent => .pass
    | .isValidRaises => .exn
    | .isValidTrue => .pass
    | .isValidFalse => .fail

/-- validate_document (utils/validation.py lines 29 to 70).  recompute must
succeed, the document must be nonempty, and every object must pass objCheck;
any exception inside the checks is caught by the surrounding handler and
yields False (fail-closed), which coincides with the first non-pass outcome
being decisive. -/
def validate_document (d : KDoc) : Bool :=
  if d.recomputeRaises then false
  else if d.objects.isEmpty then false
  else
    match (d.objects.map objCheck).find? (fun c => c != .pass) with
    | none => true
    | some _ => false

/-- Whether a kernel-level exception is raised (and internally caught) during
validate_document on this document: recompute raises, or the object loop is
reached and the first non-pass check is an exception. -/
def validationInternalExn (d : KDoc) : Bool :=
  d.recomputeRaises ||
    (!d.objects.isEmpty &&
      ((d.objects.map objCheck).find? (fun c => c != .pass)) == some ObjCheck.exn)

/-! ## Operation models (models/operations/primitives.py, sketches.py)

The pydantic schema layer has already accepted these values; the numeric
fields are carried as rationals (exact stand-ins for the float parameters)
and play no role in the dispatch logic. -/

/-- CreateCylinder operation (models/operations/primitives.py). -/
structure CreateCylinder where
  name : String
  radius : ℚ
  height : ℚ
  position : ℚ × ℚ × ℚ
  angle : ℚ
  description : String
deriving DecidableEq

/-- CreateSketch operation plane enumeration. -/
inductive SketchPlane where
  | XY : SketchPlane
  | XZ : SketchPlane
  | YZ : SketchPlane
deriving DecidableEq, BEq

/-- CreateSketch operation (models/operations/sketches.py). -/
structure CreateSketch where
  name : String
  plane : SketchPlane
  description : String
deriving DecidableEq

/-- AddSketchCircle operation (models/operations/sketches.py). -/
structure AddSketchCircle where
  sketch_name : String
  center : ℚ × ℚ
  radius : ℚ
  description : String
deriving DecidableEq

/-- The Operation union of operations/dispatcher.py line 21:
CreateCylinder, CreateSketch, AddSketchCircle. -/
inductive Operation where
  | createCylinder : CreateCylinder → Operation
  | createSketch : CreateSketch → Operation
  | addSketchCircle : AddSketchCircle → Operation
deriving DecidableEq

/-- The action Literal field of each operation model. -/
def Operation.action : Operation → String
  | .createCylinder _ => "create_cylinder"
  | .createSketch _ => "create_sketch"
  | .addSketchCircle _ => "add_sketch_circle"

/-- A raised Python exception, split the way the dispatcher and the document
tools discriminate: ValueError versus RuntimeError/OSError versus
FileNotFoundError. -/
inductive PyErr where
  | valueError : String → PyErr
  | runtimeError : String → PyErr
  | fileNotFoundError : String → PyErr
deriving DecidableEq, BEq

deriving instance DecidableEq for Except

/-- OperationResult (models/responses.py lines 107 to 117); affected_object
and error_type default to none. -/
structure OperationResult where
  success : Bool
  message : String
  affected_object : Option String := none
  error_type : Option String := none
deriving DecidableEq

/-- Kernel-chosen outcomes of one handler execution: the validation
attributes the kernel assigns to the created or modified object, and whether
recompute on the mutated document raises. -/
structure KernelEffect where
  objStateInvalid : Bool
  objShape : ShapeState
  recomputeRaises : Bool
deriving DecidableEq

/-! ## Operation handlers (operations/handlers/primitives.py, sketches.py)

Each handler performs its semantic checks (raising ValueError), mutates the
kernel document, and ends with doc.recompute() (which may raise a kernel
RuntimeError).  A handler returns the raised exception or the affected name,
together with the kernel document as it stands afterwards: a mutation that
happened before a raise persists, mirroring the shared kernel state. -/

/-- execute_create_cylinder (operations/handlers/primitives.py lines 16 to
50): duplicate-name check raises ValueError; otherwise a Part::Cylinder
object with the operation parameters is added (its validation attributes are
kernel-chosen, from eff) and the document is recomputed. -/
def execute_create_cylinder (eff : KernelEffect) (op : CreateCylinder) (doc : KDoc) :
    (Except PyErr String) × KDoc :=
  if (doc.getObject op.name).isSome then
    (.error (.valueError ("Object " ++ op.name ++ " already exists. Choose a different name.")),
      doc)
  else
    let newObj : KObj :=
      { name := op.name, isSketch := false, stateInvalid := eff.objStateInvalid,
        shape := eff.objShape, geomCount := 0 }
    let doc1 : KDoc := { objects := doc.objects ++ [newObj], recomputeRaises := eff.recomputeRaises }
    if doc1.recomputeRaises then (.error (.runtimeError "recompute failed"), doc1)
    else (.ok op.name, doc1)

/-- execute_create_sketch (operations/handlers/sketches.py lines 22 to 71):
duplicate-name check raises ValueError; otherwise a Sketcher::SketchObject is
added with a kernel-chosen placement and the document is recomputed. -/
def execute_create_sketch (eff : KernelEffect) (op : CreateSketch) (doc : KDoc) :
    (Except PyErr String) × KDoc :=
  if (doc.getObject op.name).isSome then
    (.error (.valueError ("Object " ++ op.name ++ " already exists. Choose a different name.")),
      doc)
  else
    let newObj : KObj :=
      { name := op.name, isSketch := true, stateInvalid := eff.objStateInvalid,
        shape := eff.objShape, geomCount := 0 }
    let doc1 : KDoc := { objects := doc.objects ++ [newObj], recomputeRaises := eff.recomputeRaises }
    if doc1.recomputeRaises then (.error (.runtimeError "recompute failed"), doc1)
    else (.ok op.name, doc1)

/-- execute_add_sketch_circle (operations/handlers/sketches.py lines 74 to
123): missing sketch or non-sketch target raises ValueError; otherwise one
geometry element is added to the target sketch, whose validation attributes
after the recompute are kernel-chosen (from eff). -/
def execute_add_sketch_circle (eff : KernelEffect) (op : AddSketchCircle) (doc : KDoc) :
    (Except PyErr String) × KDoc :=
  match doc.getObject op.sketch_name with
  | none =>
      (.error (.valueError ("Sketch " ++ op.sketch_name ++ " not found.")), doc)
  | some sk =>
      if !sk.isSketch then
        (.error (.valueError ("Object " ++ op.sketch_name ++ " is not a sketch.")), doc)
      else
        let upd : KObj → KObj := fun o =>
          if o.name == op.sketch_name then
            { o with
              geomCount := o.geomCount + 1
              stateInvalid := eff.objStateInvalid
              shape := eff.objShape }
          else o
        let doc1 : KDoc := { objects := doc.objects.map upd, recomputeRaises := eff.recomputeRaises }
        if doc1.recomputeRaises then (.error (.runtimeError "recompute failed"), doc1)
        else (.ok op.sketch_name, doc1)

/-! ## Dispatcher (operations/dispatcher.py) -/

/-- A handler as stored in OPERATION_HANDLERS: it receives the operation and
the active document; applying a handler to an operation of the wrong variant
would be a Python attribute error, modelled as a runtime exception. -/
def HandlerFn : Type :=
  KernelEffect → Operation → KDoc → (Except PyErr String) × KDoc

/-- The create_cylinder table entry: unpacks the operation for its typed
handler. -/
def handleCreateCylinder : HandlerFn := fun eff op doc =>
  match op with
  | .createCylinder c => execute_create_cylinder eff c doc
  | _ => (.error (.runtimeError "attribute error"), doc)

/-- The create_sketch table entry. -/
def handleCreateSketch : HandlerFn := fun eff op doc =>
  match op with
  | .createSketch c => execute_create_sketch eff c doc
  | _ => (.error (.runtimeError "attribute error"), doc)

/-- The add_sketch_circle table entry. -/
def handleAddSketchCircle : HandlerFn := fun eff op doc =>
  match op with
  | .addSketchCircle c => execute_add_sketch_circle eff c doc
  | _ => (.error (.runtimeError "attribute error"), doc)

/-- OPERATION_HANDLERS (operations/dispatcher.py lines 24 to 28). -/
def OPERATION_HANDLERS : List (String × HandlerFn) :=
  [ ("create_cylinder", handleCreateCylinder),
    ("create_sketch", handleCreateSketch),
    ("add_sketch_circle", handleAddSketchCircle) ]

/-- OPERATION_HANDLERS.get(action). -/
def lookupHandler (action : String) : Option HandlerFn :=
  (OPERATION_HANDLERS.find? (fun e => e.1 == action)).map (fun e => e.2)

/-- Error message constant ERROR_NO_ACTIVE_DOC (constants/messages.py), as
wrapped by format_freecad_error in the dispatcher catch-all branch. -/
def ERROR_NO_ACTIVE_DOC : String :=
  "No active FreeCAD document. Open or create a document first."

/-- execute_operation (operations/dispatcher.py lines 31 to 93), before the
auto_save_after wrapping.  get_active_document raising (no active document)
is caught by the generic except branch and reported as a runtime result; a
ValueError from a handler becomes a validation result; any other handler
exception becomes a runtime result; a handler success is followed by
validate_document, whose failure becomes a geometry result.  The second
component is the kernel document afterwards (mutations persist even when the
result is a failure). -/
def execute_operation (eff : KernelEffect) (activeDoc : Option KDoc) (op : Operation) :
    OperationResult × Option KDoc :=
  match activeDoc with
  | none =>
      ({ success := false, message := ERROR_NO_ACTIVE_DOC, error_type := some "runtime" }, none)
  | some doc =>
      match lookupHandler op.action with
      | none =>
          ({ success := false, message := "Unknown operation: " ++ op.action,
             error_type := some "validation" }, some doc)
      | some h =>
          let out := h eff op doc
          match out.1 with
          | .error (.valueError m) =>
              ({ success := false, message := m, error_type := some "validation" }, some out.2)
          | .error (.runtimeError m) =>
              ({ success := false, message := m, error_type := some "runtime" }, some out.2)
          | .error (.fileNotFoundError m) =>
              ({ success := false, message := m, error_type := some "runtime" }, some out.2)
          | .ok affected =>
              if !validate_document out.2 then
                ({ success := false,
                   message := "Operation produced invalid geometry. Document validation failed.",
                   error_type := some "geometry" }, some out.2)
              else
                ({ success := true, message := "Successfully created " ++ affected,
                   affected_object := some affected }, some out.2)

/-- AUTO_SAVE_INTERVAL = 1 (constants/operations.py line 22), the interval
used by the auto_save_after wrapper of core/working_files.py that the
dispatcher is decorated with. -/
def AUTO_SAVE_INTERVAL : Nat := 1

/-- increment_operation_counter (core/working_files.py lines 214 to 226):
returns the incremented counter and whether auto_save_working_file was
invoked. -/
def increment_operation_counter (c : Nat) : Nat × Bool :=
  (c + 1, (c + 1) % AUTO_SAVE_INTERVAL == 0)

/-- The auto_save_after wrapper applied to execute_operation
(core/working_files.py lines 229 to 249 and operations/dispatcher.py line
31): the wrapped call runs the dispatcher, then increments the operation
counter exactly once, triggering the auto-save on the interval.  Since
execute_operation returns a result on every path, the increment runs on every
call.  Returns (result, document afterwards, new counter, auto-save fired). -/
def execute_operation_wrapped (eff : KernelEffect) (activeDoc : Option KDoc) (op : Operation)
    (c : Nat) : OperationResult × Option KDoc × Nat × Bool :=
  let out := execute_operation eff activeDoc op
  let inc := increment_operation_counter c
  (out.1, out.2, inc.1, inc.2)

/-! ## Session and file-system model (working_files.py and tools/document.py)

The document tools import setup_working_file, set_active_files and
reset_operation_counter from the module adam_mcp.working_files
(tools/document.py lines 31 to 37).  Files map paths to the kernel documents
they store; writing a file stores the document value, and byte-for-byte file
equality is equality of stored values. -/

/-- The on-disk state: each path stores a serialized kernel document. -/
def Files : Type := String → Option KDoc

/-- Overwrite the file at path p with document d. -/
def fsSet (f : Files) (p : String) (d : KDoc) : Files :=
  fun q => if q = p then some d else f q

/-- The in-kernel active document together with the path it was opened from
or last saved to (its FileName), which is where Document.save() writes. -/
structure ADoc where
  fileName : Option String
  doc : KDoc

/-- The process-wide session state: the file system, the module globals
_active_main_file_path, _active_work_file_path and _operation_counter of
working_files.py, and the active document of the kernel. -/
structure St where
  files : Files
  mainPath : Option String
  workPath : Option String
  counter : Nat
  active : Option ADoc

/-- WORK_FILE_SUFFIX = ".work" (constants.py line 44, the module imported by
working_files.py). -/
def WORK_FILE_SUFFIX : String := ".work"

/-- VALIDATE_BEFORE_COMMIT = True (constants.py line 45). -/
def VALIDATE_BEFORE_COMMIT : Bool := true

/-- get_work_file_path of working_files.py (lines 69 to 103), default branch
(no work-directory override configured): the working file sits next to the
main file and its name is the full main file name with WORK_FILE_SUFFIX
appended after it.  Over canonical path strings this is string append; the
override branch is modelled in the path-shape section below. -/
def work_file_path (main : String) : String := main ++ WORK_FILE_SUFFIX

/-- setup_working_file of working_files.py (lines 106 to 125), the function
imported by tools/document.py: derive the working path and, whenever the main
file exists, copy it over the working file; there is no check for an already
existing working file.  Returns the working path and the file system
afterwards. -/
def setup_working_file (main : String) (files : Files) : String × Files :=
  let w := work_file_path main
  match files main with
  | some d => (w, fsSet files w d)
  | none => (w, files)

/-- Error and success message constants of constants.py, with their path
placeholder applied. -/
def ERROR_NO_OPEN_DOC : String :=
  "No document open. Use open_document() or create_document() first."

def ERROR_VALIDATION_FAILED : String :=
  "Document validation failed. Cannot commit corrupted state. " ++
    "Fix errors or use rollback_working_changes() to discard changes."

def ERROR_FILE_NOT_FOUND (p : String) : String := "File not found: " ++ p

def SUCCESS_CHANGES_COMMITTED (p : String) : String := "Changes committed to " ++ p

def SUCCESS_CHANGES_ROLLED_BACK (p : String) : String :=
  "Working changes discarded. Reset to last commit: " ++ p

/-- Document information returned by the document tools; the kernel-assigned
document name is kernel-internal and not modelled. -/
structure DocInfo where
  object_count : Nat
  objects : List String
deriving DecidableEq

/-- open_document (tools/document.py lines 81 to 130).  Path expansion and
resolution are modelled as the identity on canonical path strings.  A missing
main file raises FileNotFoundError before anything else; otherwise
setup_working_file copies main over work, the session globals are set, the
counter is reset, any open kernel document is closed and the working file is
opened as the active document. -/
def open_document (path : String) (st : St) : (Except PyErr DocInfo) × St :=
  let main := path
  match st.files main with
  | none => (.error (.fileNotFoundError (ERROR_FILE_NOT_FOUND main)), st)
  | some _ =>
      let su := setup_working_file main st.files
      let w := su.1
      let files1 := su.2
      match files1 w with
      | none => (.error (.runtimeError "failed to open working file"), st)
      | some dw =>
          (.ok { object_count := dw.objects.length, objects := dw.objects.map (fun o => o.name) },
            { files := files1, mainPath := some main, workPath := some w, counter := 0,
              active := some { fileName := some w, doc := dw } })

/-- create_document (tools/document.py lines 133 to 187): close any open
document, create a fresh empty kernel document, save it to the main path
(overwriting whatever was there), run setup_working_file (which now copies
the just-written main file to the working path), set the session globals,
save the document to the working path and reset the counter. -/
def create_document (path : String) (st : St) : (Except PyErr DocInfo) × St :=
  let main := path
  let emptyDoc : KDoc := { objects := [], recomputeRaises := false }
  let files1 := fsSet st.files main emptyDoc
  let su := setup_working_file main files1
  let w := su.1
  let files2 := su.2
  let files3 := fsSet files2 w emptyDoc
  (.ok { object_count := 0, objects := [] },
    { files := files3, mainPath := some main, workPath := some w, counter := 0,
      active := some { fileName := some w, doc := emptyDoc } })

/-- The steps of commit_changes that touch the kernel or the file system, in
execution order: the document-validation check, the Document.save() call and
the shutil.copy2 of work over main. -/
inductive CEvent where
  | validate : CEvent
  | save : CEvent
  | copy : CEvent
deriving DecidableEq

/-- commit_changes (tools/document.py lines 190 to 228).  Missing session
globals raise ERROR_NO_OPEN_DOC; get_active_document is called outside the
try block, so its RuntimeError propagates; with VALIDATE_BEFORE_COMMIT set,
validate_document runs on the in-kernel working document and a failure raises
ERROR_VALIDATION_FAILED with no file touched; only then is the document saved
(to its FileName) and the work file copied over the main file.  The third
component lists the executed steps in order. -/
def commit_changes (st : St) : (Except PyErr String) × St × List CEvent :=
  match st.mainPath, st.workPath with
  | some m, some w =>
      match st.active with
      | none => (.error (.runtimeError ERROR_NO_ACTIVE_DOC), st, [])
      | some ad =>
          if VALIDATE_BEFORE_COMMIT && !validate_document ad.doc then
            (.error (.runtimeError ERROR_VALIDATION_FAILED), st, [.validate])
          else
            match ad.fileName with
            | none =>
                (.error (.runtimeError "save failed"), st, [.validate, .save])
            | some p =>
                let files1 := fsSet st.files p ad.doc
                match files1 w with
                | none =>
                    (.error (.runtimeError "copy failed"), { st with files := files1 },
                      [.validate, .save, .copy])
                | some dw =>
                    (.ok (SUCCESS_CHANGES_COMMITTED m),
                      { st with files := fsSet files1 m dw }, [.validate, .save, .copy])
  | _, _ => (.error (.runtimeError ERROR_NO_OPEN_DOC), st, [])

/-- rollback_working_changes (tools/document.py lines 231 to 267): missing
session globals raise ERROR_NO_OPEN_DOC with nothing touched; otherwise the
active document is closed, the main file is copied over the working file, the
working file is reopened as the active document and the counter is reset to
zero.  A missing active document or a failing copy surfaces as a RuntimeError
from the try block. -/
def rollback_working_changes (st : St) : (Except PyErr String) × St :=
  match st.mainPath, st.workPath with
  | some m, some w =>
      match st.active with
      | none => (.error (.runtimeError ERROR_NO_ACTIVE_DOC), st)
      | some _ =>
          let st1 : St := { st with active := none }
          match st1.files m with
          | none => (.error (.runtimeError "Failed to rollback changes."), st1)
          | some dm =>
              (.ok (SUCCESS_CHANGES_ROLLED_BACK m),
                { files := fsSet st1.files w dm, mainPath := some m, workPath := some w,
                  counter := 0, active := some { fileName := some w, doc := dm } })
  | _, _ => (.error (.runtimeError ERROR_NO_OPEN_DOC), st)

/-- get_document_info (tools/document.py lines 270 to 287): a read-only query
of the active document; no state is touched. -/
def get_document_info (st : St) : (Except PyErr DocInfo) × St :=
  match st.active with
  | none => (.error (.runtimeError ERROR_NO_ACTIVE_DOC), st)
  | some ad =>
      (.ok { object_count := ad.doc.objects.length,
             objects := ad.doc.objects.map (fun o => o.name) }, st)

/-- A dispatched mutating call at the session level: execute_operation runs
against the kernel active document, the kernel document is updated in place,
and the auto_save_after wrapper increments the counter and, on the interval,
runs auto_save_working_file, which saves the active document to its FileName
(core/working_files.py lines 193 to 211) and does nothing without an active
document or a configured working path. -/
def exec_tool (eff : KernelEffect) (op : Operation) (st : St) : OperationResult × St :=
  let out := execute_operation eff (st.active.map (fun a => a.doc)) op
  let active1 : Option ADoc :=
    match st.active, out.2 with
    | some ad, some d1 => some { ad with doc := d1 }
    | _, _ => st.active
  let inc := increment_operation_counter st.counter
  let st1 : St := { st with active := active1, counter := inc.1 }
  if inc.2 then
    match st1.active, st1.workPath with
    | some ad, some _ =>
        match ad.fileName with
        | some p => (out.1, { st1 with files := fsSet st1.files p ad.doc })
        | none => (out.1, st1)
    | _, _ => (out.1, st1)
  else (out.1, st1)

/-- One exposed operation of the tool interface (section 6 of the spec):
open, create, commit, rollback, an info query, or a dispatched mutating
operation with its kernel effect. -/
inductive ToolCall where
  | openDoc : String → ToolCall
  | createDoc : String → ToolCall
  | commitCall : ToolCall
  | rollbackCall : ToolCall
  | infoCall : ToolCall
  | execCall : KernelEffect → Operation → ToolCall

/-- The state transition of one exposed operation. -/
def runTool : ToolCall → St → St
  | .openDoc p, st => (open_document p st).2
  | .createDoc p, st => (create_document p st).2
  | .commitCall, st => (commit_changes st).2.1
  | .rollbackCall, st => (rollback_working_changes st).2
  | .infoCall, st => (get_document_info st).2
  | .execCall eff op, st => (exec_tool eff op st).2

/-- Whether commit_changes succeeds from this state. -/
def commitOk (st : St) : Bool :=
  match (commit_changes st).1 with
  | .ok _ => true
  | .error _ => false

/-- The session invariant maintained by the tools: whenever a kernel document
is active, its FileName is the session working path.  It holds of the initial
state (no active document) and is preserved by every tool call. -/
def SessionInv (st : St) : Prop :=
  ∀ ad, st.active = some ad → st.workPath ≠ none ∧ ad.fileName = st.workPath

/-! ## Working-path derivation shape (C9)

The repository contains two derivation functions named get_work_file_path:
one in adam_mcp/working_files.py (the module the document tools import) and
one in adam_mcp/core/working_files.py, and they disagree on where the suffix
goes.  Canonical paths are modelled structurally as a directory, a stem and
an extension (the extension carries its leading dot, as Path.suffix does);
the optional work-directory override is the already-resolved override
directory (the special value temp resolves to the system temp directory
before this point). -/

/-- A canonical file path split the way pathlib splits it: parent directory
components, stem, and suffix (extension including the leading dot). -/
structure FPath where
  dir : List String
  stem : String
  ext : String
deriving DecidableEq

namespace CoreWF

/-- WORK_FILE_SUFFIX = "_work" (constants/operations.py line 23). -/
def WORK_FILE_SUFFIX : String := "_work"

/-- get_work_file_path of core/working_files.py (lines 112 to 152): the
working file name is the stem, then the suffix, then the extension; it is
placed in the override directory when one is configured, otherwise next to
the main file.  Returns the directory components and the file name. -/
def get_work_file_path (workDir : Option (List String)) (p : FPath) :
    List String × String :=
  match workDir with
  | some wd => (wd, p.stem ++ WORK_FILE_SUFFIX ++ p.ext)
  | none => (p.dir, p.stem ++ WORK_FILE_SUFFIX ++ p.ext)

end CoreWF

namespace FlatWF

/-- get_work_file_path of working_files.py (lines 69 to 103), the module
imported by tools/document.py: with an override directory the name is the
stem with WORK_FILE_SUFFIX (".work") appended, dropping the extension;
without one the suffix is appended after the complete file name. -/
def get_work_file_path (workDir : Option (List String)) (p : FPath) :
    List String × String :=
  match workDir with
  | some wd => (wd, p.stem ++ WORK_FILE_SUFFIX)
  | none => (p.dir, (p.stem ++ p.ext) ++ WORK_FILE_SUFFIX)

end FlatWF

/-! ## Sandbox path resolution (utils/paths.py, C10) -/

/-- The resolve() step on an absolute component list: dot components vanish,
dot-dot components pop the previous component (staying at the root when
there is none), everything else is appended. -/
def normalizeComps (cs : List String) : List String :=
  cs.foldl
    (fun acc c =>
      if c = "." then acc
      else if c = ".." then acc.dropLast
      else acc ++ [c])
    []

/-- Render absolute path components the way str(Path) does. -/
def renderAbs (cs : List String) : String :=
  cs.foldl (fun s c => s ++ "/" ++ c) ""

/-- Python str.startswith over the characters of the two strings. -/
def strStartsWith (pre s : String) : Bool := List.isPrefixOf pre.data s.data

/-- resolve_project_path (utils/paths.py lines 8 to 52).  The input path is
given post-expanduser as an absolute flag plus components (a leading tilde
makes it absolute); base is the already-resolved DEFAULT_PROJECTS_DIR.
Absolute inputs raise ValueError; the input is joined onto the base and
resolved; the containment guard compares the rendered strings with
startswith, exactly as the source does. -/
def resolve_project_path (base : List String) (absolute : Bool) (comps : List String) :
    Except PyErr String :=
  if absolute then
    .error (.valueError "Absolute paths not allowed. Use relative paths only.")
  else
    let resolved := normalizeComps (base ++ comps)
    if !(strStartsWith (renderAbs base) (renderAbs resolved)) then
      .error (.valueError "Path escapes project directory.")
    else
      .ok (renderAbs resolved)

/-- Whether an absolute component path lies inside the directory given by
base: base is a component-wise prefix of it. -/
def insideBase (base resolved : List String) : Bool :=
  List.isPrefixOf base resolved

/-! ## Shared demonstration values for witnesses -/

/-- A healthy kernel object. -/
def objBox : KObj :=
  { name := "Box", isSketch := false, stateInvalid := false, shape := .isValidTrue, geomCount := 0 }

/-- A nonempty valid kernel document. -/
def docGood : KDoc := { objects := [objBox], recomputeRaises := false }

/-- An empty kernel document; validate_document rejects it. -/
def docEmptyK : KDoc := { objects := [], recomputeRaises := false }

/-- A benign kernel effect. -/
def effDemo : KernelEffect :=
  { objStateInvalid := false, objShape := .isValidTrue, recomputeRaises := false }

/-- A demonstration operation. -/
def opDemo : Operation :=
  .createCylinder
    { name := "Shaft", radius := 5, height := 40, position := (0, 0, 0), angle := 360,
      description := "demo shaft" }

/-- A session whose working document is currently invalid (empty). -/
def stInvalidCommit : St :=
  { files := fun p =>
      if p = "a.FCStd" then some docGood
      else if p = "a.FCStd.work" then some docEmptyK
      else none,
    mainPath := some "a.FCStd", workPath := some "a.FCStd.work", counter := 3,
    active := some { fileName := some "a.FCStd.work", doc := docEmptyK } }

/-- C1.  A commit attempt on an active session whose working document fails
document validation raises the validation-failed condition and mutates no
file: the whole state, and in particular the canonical file content, is
unchanged. -/
theorem commit_validation_failure_preserves_canonical
    (st : St) (m w : String) (ad : ADoc)
    (hm : st.mainPath = some m) (hw : st.workPath = some w)
    (ha : st.active = some ad) (hv : validate_document ad.doc = false) :
    (commit_changes st).1 = .error (.runtimeError ERROR_VALIDATION_FAILED) ∧
    (commit_changes st).2.1 = st ∧
    (commit_changes st).2.1.files m = st.files m := by
  unfold commit_changes
  rw [hm, hw, ha]
  simp [VALIDATE_BEFORE_COMMIT, hv]

/-- Witness for C1 at a concrete session with an empty (hence invalid)
working document. -/
theorem commit_validation_failure_preserves_canonical_witness :
    validate_document docEmptyK = false ∧
    ((commit_changes stInvalidCommit).1 = .error (.runtimeError ERROR_VALIDATION_FAILED) ∧
     (commit_changes stInvalidCommit).2.1 = stInvalidCommit ∧
     (commit_changes stInvalidCommit).2.1.files "a.FCStd" = stInvalidCommit.files "a.FCStd") :=
  ⟨rfl,
    commit_validation_failure_preserves_canonical stInvalidCommit "a.FCStd" "a.FCStd.work"
      { fileName := some "a.FCStd.work", doc := docEmptyK } rfl rfl rfl rfl⟩

/-- C6.  Every OperationResult the dispatcher produces satisfies the
exclusivity invariant: success is true exactly when error_type is none. -/
theorem operation_result_exclusivity (eff : KernelEffect) (activeDoc : Option KDoc)
    (op : Operation) :
    ((execute_operation eff activeDoc op).1.success = true) ↔
      ((execute_operation eff activeDoc op).1.error_type = none) := by
  unfold execute_operation
  cases activeDoc with
  | none => simp
  | some doc =>
      cases h : lookupHandler op.action with
      | none => simp
      | some hf =>
          rcases hout : hf eff op doc with ⟨res, d1⟩
          rcases res with e | a
          · cases e <;> simp [hout]
          · simp only [hout]
            by_cases hv : validate_document d1 <;> simp [hv]

/-- Witness for C6 at a concrete dispatcher call. -/
theorem operation_result_exclusivity_witness :
    ((execute_operation effDemo (some docEmptyK) opDemo).1.success = true) ↔
      ((execute_operation effDemo (some docEmptyK) opDemo).1.error_type = none) :=
  operation_result_exclusivity effDemo (some docEmptyK) opDemo

/-- C7.  The auto_save_after wrapper around the dispatcher increments the
operation counter by exactly one on every call, and the auto-save fires
exactly when the incremented counter is divisible by AUTO_SAVE_INTERVAL,
which is a fixed constant at least 1. -/
theorem note_operation_counter_cadence (eff : KernelEffect) (activeDoc : Option KDoc)
    (op : Operation) (c : Nat) :
    (execute_operation_wrapped eff activeDoc op c).2.2.1 = c + 1 ∧
    ((execute_operation_wrapped eff activeDoc op c).2.2.2 = true ↔
      (c + 1) % AUTO_SAVE_INTERVAL = 0) ∧
    1 ≤ AUTO_SAVE_INTERVAL := by
  refine ⟨rfl, ?_, by decide⟩
  simp [execute_operation_wrapped, increment_operation_counter]

/-- Witness for C7 at a concrete call and counter value. -/
theorem note_operation_counter_cadence_witness :
    (execute_operation_wrapped effDemo none opDemo 4).2.2.1 = 4 + 1 ∧
    ((execute_operation_wrapped effDemo none opDemo 4).2.2.2 = true ↔
      (4 + 1) % AUTO_SAVE_INTERVAL = 0) ∧
    1 ≤ AUTO_SAVE_INTERVAL :=
  note_operation_counter_cadence effDemo none opDemo 4

/-- A sketch object carrying uncommitted work. -/
def objSketch : KObj :=
  { name := "Sketch", isSketch := true, stateInvalid := false, shape := .absent, geomCount := 1 }

/-- A working document with edits beyond the committed snapshot. -/
def docEdited : KDoc := { objects := [objBox, objSketch], recomputeRaises := false }

/-- On-disk state during a resume: the canonical file holds the committed
snapshot and the working file holds a valid document with uncommitted
edits. -/
def filesResume : Files := fun p =>
  if p = "a.FCStd" then some docGood
  else if p = "a.FCStd.work" then some docEdited
  else none

/-- C3 evaluation at the failing input.  Calling setup_working_file again on
a canonical path whose derived working file already exists with uncommitted
edits returns the same working path, but overwrites the working file with the
canonical content, destroying the prior edits: the function copies main over
work whenever main exists, with no existence or validity check on the working
file. -/
theorem setup_working_file_overwrites_existing_work :
    (setup_working_file "a.FCStd" filesResume).1 = "a.FCStd.work" ∧
    (setup_working_file "a.FCStd" (setup_working_file "a.FCStd" filesResume).2).1 =
      "a.FCStd.work" ∧
    filesResume "a.FCStd.work" = some docEdited ∧
    (setup_working_file "a.FCStd" filesResume).2 "a.FCStd.work" = some docGood ∧
    docGood ≠ docEdited := by
  decide

/-- A state with no session but an existing file at the target path. -/
def stExisting : St :=
  { files := fun p => if p = "p.FCStd" then some docGood else none,
    mainPath := none, workPath := none, counter := 0, active := none }

/-- C2 counterexample.  create_document is an exposed operation other than a
successful commit, yet it writes the canonical path: creating at a path that
already holds a document replaces the canonical content with the fresh empty
document. -/
theorem create_document_overwrites_canonical :
    (runTool (.createDoc "p.FCStd") stExisting).files "p.FCStd" = some docEmptyK ∧
    stExisting.files "p.FCStd" = some docGood ∧
    (runTool (.createDoc "p.FCStd") stExisting).files "p.FCStd" ≠
      stExisting.files "p.FCStd" := by
  decide

/-- The canonical path of section 6 of the spec, split into components. -/
def pBracket : FPath := { dir := ["home", "user"], stem := "bracket", ext := ".FCStd" }

/-- C9 counterexample.  The derivation used by the document tools does not
insert the suffix before the extension: for bracket.FCStd it produces
bracket.FCStd.work, which is not of the form stem-suffix-extension for either
configured suffix value, and under an override directory it drops the
extension entirely. -/
theorem flat_work_path_suffix_after_extension :
    FlatWF.get_work_file_path none pBracket = (["home", "user"], "bracket.FCStd.work") ∧
    "bracket.FCStd.work" ≠ pBracket.stem ++ WORK_FILE_SUFFIX ++ pBracket.ext ∧
    "bracket.FCStd.work" ≠ pBracket.stem ++ CoreWF.WORK_FILE_SUFFIX ++ pBracket.ext ∧
    FlatWF.get_work_file_path (some ["workdir"]) pBracket = (["workdir"], "bracket.work") := by
  decide

/-- C9 amended.  The core resolver inserts its suffix between stem and
extension in both the default and the override branch, as the claim states;
the resolver imported by the document tools instead appends its suffix after
the complete file name in the default branch and replaces the extension with
the suffix in the override branch. -/
theorem work_path_derivation_characterization (p : FPath) (wd : List String) :
    CoreWF.get_work_file_path none p = (p.dir, p.stem ++ CoreWF.WORK_FILE_SUFFIX ++ p.ext) ∧
    CoreWF.get_work_file_path (some wd) p = (wd, p.stem ++ CoreWF.WORK_FILE_SUFFIX ++ p.ext) ∧
    FlatWF.get_work_file_path none p = (p.dir, (p.stem ++ p.ext) ++ WORK_FILE_SUFFIX) ∧
    FlatWF.get_work_file_path (some wd) p = (wd, p.stem ++ WORK_FILE_SUFFIX) :=
  ⟨rfl, rfl, rfl, rfl⟩

/-- The resolved DEFAULT_PROJECTS_DIR used in the C10 evaluation. -/
def projectsBase : List String :=
  ["home", "user", "Documents", "Projects", "adam_mcp", "dev_projects"]

/-- C10 evaluation at the failing input.  The containment guard of
resolve_project_path compares rendered path strings with startswith, so a
relative input that climbs one level and descends into a sibling directory
whose name extends the base name is accepted and the returned path lies
outside the base directory; an absolute input and a plain upward traversal
are rejected as the claim states. -/
theorem resolve_project_path_prefix_escape :
    resolve_project_path projectsBase false ["..", "dev_projects_evil", "part.FCStd"] =
      .ok "/home/user/Documents/Projects/adam_mcp/dev_projects_evil/part.FCStd" ∧
    insideBase projectsBase
      (normalizeComps (projectsBase ++ ["..", "dev_projects_evil", "part.FCStd"])) = false ∧
    resolve_project_path projectsBase true ["part.FCStd"] =
      .error (.valueError "Absolute paths not allowed. Use relative paths only.") ∧
    resolve_project_path projectsBase false ["..", "..", "secrets.txt"] =
      .error (.valueError "Path escapes project directory.") := by
  decide

/-- A kernel effect where the Shape.isValid() call on the created object
raises (the exception is only reachable inside post-execution validation,
since the recompute inside the handler succeeded). -/
def effShapeRaises : KernelEffect :=
  { objStateInvalid := false, objShape := .isValidRaises, recomputeRaises := false }

/-- The document produced by opDemo under effShapeRaises. -/
def docShaftRaises : KDoc :=
  { objects :=
      [{ name := "Shaft", isSketch := false, stateInvalid := false, shape := .isValidRaises,
         geomCount := 0 }],
    recomputeRaises := false }

/-- C5 counterexample.  A kernel exception raised during post-execution
validation (here Shape.isValid() raising on the freshly created object) is
swallowed inside validate_document and reported as errorKind geometry, not
runtime as the claim states. -/
theorem validation_exception_reported_as_geometry :
    (execute_operation effShapeRaises (some docEmptyK) opDemo).1.error_type = some "geometry" ∧
    (execute_operation effShapeRaises (some docEmptyK) opDemo).2 = some docShaftRaises ∧
    validationInternalExn docShaftRaises = true ∧
    ¬ (execute_operation effShapeRaises (some docEmptyK) opDemo).1.error_type = some "runtime" := by
  decide

/-- C5 amended.  The dispatcher is a total function into OperationResult (it
never propagates an exception) and classifies outcomes as follows: a missing
active document is a runtime result; a ValueError raised by the handler is a
validation result; any other handler exception is a runtime result; and a
post-execution validation failure is a geometry result, where any kernel
exception raised inside validate_document is swallowed fail-closed and hence
also surfaces as geometry, not runtime. -/
theorem dispatcher_error_classification (eff : KernelEffect) (doc : KDoc) (op : Operation) :
    ((execute_operation eff none op).1.error_type = some "runtime") ∧
    (∀ hf m d1, lookupHandler op.action = some hf →
      hf eff op doc = (.error (.valueError m), d1) →
      (execute_operation eff (some doc) op).1.error_type = some "validation") ∧
    (∀ hf m d1, lookupHandler op.action = some hf →
      hf eff op doc = (.error (.runtimeError m), d1) →
      (execute_operation eff (some doc) op).1.error_type = some "runtime") ∧
    (∀ hf n d1, lookupHandler op.action = some hf →
      hf eff op doc = (.ok n, d1) → validate_document d1 = false →
      (execute_operation eff (some doc) op).1.error_type = some "geometry") ∧
    (∀ d, validationInternalExn d = true → validate_document d = false) := by
  refine ⟨rfl, ?_, ?_, ?_, ?_⟩
  · intro hf m d1 hl hh
    simp [execute_operation, hl, hh]
  · intro hf m d1 hl hh
    simp [execute_operation, hl, hh]
  · intro hf n d1 hl hh hv
    simp [execute_operation, hl, hh, hv]
  · intro d h
    unfold validationInternalExn at h
    unfold validate_document
    by_cases hr : d.recomputeRaises
    · simp [hr]
    · simp only [hr, Bool.false_or] at h
      rw [Bool.and_eq_true] at h
      obtain ⟨h1, h2⟩ := h
      cases hfind : (d.objects.map objCheck).find? (fun c => c != ObjCheck.pass) with
      | none => rw [hfind] at h2; exact absurd h2 (by decide)
      | some c =>
          have h1a : d.objects.isEmpty = false := by simpa using h1
          simp [hr, h1a, hfind]

/-- A document that already contains an object named Shaft. -/
def docWithShaft : KDoc :=
  { objects :=
      [{ name := "Shaft", isSketch := false, stateInvalid := false, shape := .isValidTrue,
         geomCount := 0 }],
    recomputeRaises := false }

/-- Witness for C5 at a concrete duplicate-name call: the handler raises
ValueError and the dispatcher reports a validation result. -/
theorem dispatcher_error_classification_witness :
    (execute_operation effDemo (some docWithShaft) opDemo).1.error_type = some "validation" :=
  (dispatcher_error_classification effDemo docWithShaft opDemo).2.1
    handleCreateCylinder "Object Shaft already exists. Choose a different name."
    docWithShaft rfl rfl

/-- C8.  On an active session (globals set, kernel document active, canonical
file present) rollback succeeds, the working file afterwards equals the
canonical file (all uncommitted edits discarded), and the operation counter
is reset to 0; with no session globals, rollback fails with the no-open-
document condition and leaves the state untouched. -/
theorem rollback_semantics (st : St) :
    (∀ m w ad dm, st.mainPath = some m → st.workPath = some w → st.active = some ad →
      st.files m = some dm →
      (rollback_working_changes st).1 = .ok (SUCCESS_CHANGES_ROLLED_BACK m) ∧
      (rollback_working_changes st).2.files w = some dm ∧
      (rollback_working_changes st).2.files w = (rollback_working_changes st).2.files m ∧
      (rollback_working_changes st).2.counter = 0) ∧
    ((st.mainPath = none ∨ st.workPath = none) →
      (rollback_working_changes st).1 = .error (.runtimeError ERROR_NO_OPEN_DOC) ∧
      (rollback_working_changes st).2 = st) := by
  constructor
  · intro m w ad dm hm hw ha hfm
    unfold rollback_working_changes
    rw [hm, hw, ha]
    dsimp only
    rw [hfm]
    refine ⟨rfl, ?_, ?_, rfl⟩
    · simp [fsSet]
    · by_cases hmw : m = w
      · simp [fsSet, hmw]
      · simp [fsSet, hmw, hfm]
  · intro h
    rcases h with hm | hw
    · unfold rollback_working_changes
      rw [hm]
      exact ⟨rfl, rfl⟩
    · unfold rollback_working_changes
      rcases hm : st.mainPath with _ | m
      · exact ⟨rfl, rfl⟩
      · rw [hw]
        exact ⟨rfl, rfl⟩

/-- Witness for C8 at a concrete active session: rollback restores the
committed snapshot into the working file and zeroes the counter. -/
theorem rollback_semantics_witness :
    (rollback_working_changes stInvalidCommit).1 =
      .ok (SUCCESS_CHANGES_ROLLED_BACK "a.FCStd") ∧
    (rollback_working_changes stInvalidCommit).2.files "a.FCStd.work" = some docGood ∧
    (rollback_working_changes stInvalidCommit).2.files "a.FCStd.work" =
      (rollback_working_changes stInvalidCommit).2.files "a.FCStd" ∧
    (rollback_working_changes stInvalidCommit).2.counter = 0 :=
  (rollback_semantics stInvalidCommit).1 "a.FCStd" "a.FCStd.work"
    { fileName := some "a.FCStd.work", doc := docEmptyK } docGood rfl rfl rfl (by decide)

/-- A session whose working document is valid and whose files are in place,
so a commit runs all three steps. -/
def stValidCommit : St :=
  { files := fun p =>
      if p = "b.FCStd" then some docGood
      else if p = "b.FCStd.work" then some docGood
      else none,
    mainPath := some "b.FCStd", workPath := some "b.FCStd.work", counter := 2,
    active := some { fileName := some "b.FCStd.work", doc := docGood } }

/-- C4 counterexample.  In a concrete successful commit execution the step
trace is validation first, then save, then copy: the save step does not
precede the validation step. -/
theorem commit_save_does_not_precede_validation :
    (commit_changes stValidCommit).2.2 = [CEvent.validate, CEvent.save, CEvent.copy] ∧
    ¬ ((commit_changes stValidCommit).2.2.findIdx (fun e => e == CEvent.save) <
       (commit_changes stValidCommit).2.2.findIdx (fun e => e == CEvent.validate)) := by
  decide

/-- C4 amended.  In every commit execution the validation step precedes the
save step: whenever the save step runs, validation has already run, earlier
in the step trace. -/
theorem commit_validation_precedes_save (st : St)
    (h : CEvent.save ∈ (commit_changes st).2.2) :
    CEvent.validate ∈ (commit_changes st).2.2 ∧
    (commit_changes st).2.2.findIdx (fun e => e == CEvent.validate) <
      (commit_changes st).2.2.findIdx (fun e => e == CEvent.save) := by
  obtain ⟨f, mp, wp, cnt, ac⟩ := st
  unfold commit_changes at h ⊢
  rcases mp with _ | m
  · exact absurd h (List.not_mem_nil _)
  rcases wp with _ | w
  · exact absurd h (List.not_mem_nil _)
  rcases ac with _ | ad
  · exact absurd h (List.not_mem_nil _)
  obtain ⟨fn, d⟩ := ad
  dsimp only at h ⊢
  by_cases hv : (VALIDATE_BEFORE_COMMIT && !validate_document d) = true
  · rw [if_pos hv] at h
    dsimp only at h
    exact absurd h (by decide)
  · rw [if_neg hv] at h ⊢
    rcases fn with _ | pf
    · dsimp only at h ⊢
      exact ⟨by decide, by decide⟩
    · dsimp only at h ⊢
      rcases hcw : fsSet f pf d w with _ | dw
      · rw [hcw] at h
        dsimp only at h ⊢
        exact ⟨by decide, by decide⟩
      · rw [hcw] at h
        dsimp only at h ⊢
        exact ⟨by decide, by decide⟩

/-- Witness for C4 at a concrete successful commit. -/
theorem commit_validation_precedes_save_witness :
    CEvent.validate ∈ (commit_changes stValidCommit).2.2 ∧
    (commit_changes stValidCommit).2.2.findIdx (fun e => e == CEvent.validate) <
      (commit_changes stValidCommit).2.2.findIdx (fun e => e == CEvent.save) :=
  commit_validation_precedes_save stValidCommit (by decide)

/-- On an active document the dispatcher always hands back a kernel document
(the kernel state persists through every outcome). -/
theorem execute_operation_active_some (eff : KernelEffect) (doc : KDoc) (op : Operation) :
    ∃ d1, (execute_operation eff (some doc) op).2 = some d1 := by
  unfold execute_operation
  cases lookupHandler op.action with
  | none => exact ⟨doc, rfl⟩
  | some hf =>
      rcases hout : hf eff op doc with ⟨res, d1⟩
      rcases res with e | a
      · cases e <;> simp [hout]
      · simp only [hout]
        by_cases hv : validate_document d1 <;> simp [hv]

/-- The file-system write set of each exposed operation: which paths it is
allowed to have written.  Open writes at most the derived working path of the
opened file; create writes the created canonical path and its derived working
path; commit writes the session working path (its save step) and, only when
it succeeds, the session canonical path; rollback and the auto-save of a
dispatched operation write at most the session working path; info queries
write nothing. -/
def writeTarget : ToolCall → St → String → Prop
  | .openDoc q, _, p => p = work_file_path q
  | .createDoc q, _, p => p = q ∨ p = work_file_path q
  | .commitCall, st, p => st.workPath = some p ∨ (commitOk st = true ∧ st.mainPath = some p)
  | .rollbackCall, st, p => st.workPath = some p
  | .infoCall, _, _ => False
  | .execCall _ _, st, p => st.workPath = some p

/-- C2 amended.  Under the session invariant, any path whose content changes
across an exposed operation lies in that operation write set: the canonical
file of a session is written only by a successful commit, while
create-document writes the canonical path it is given; every other operation
writes at most derived working-file paths. -/
theorem tool_canonical_write_confinement (t : ToolCall) (st : St) (p : String)
    (hinv : SessionInv st)
    (hch : (runTool t st).files p ≠ st.files p) :
    writeTarget t st p := by
  obtain ⟨f, mp, wp, cnt, ac⟩ := st
  cases t with
  | openDoc q =>
      unfold runTool open_document at hch
      dsimp only at hch
      rcases hfq : f q with _ | d
      · rw [hfq] at hch
        exact absurd rfl hch
      · unfold setup_working_file at hch
        dsimp only at hch
        rw [hfq] at hch
        dsimp only at hch
        have hww : fsSet f (work_file_path q) d (work_file_path q) = some d := by
          simp [fsSet]
        rw [hww] at hch
        dsimp only at hch
        by_cases hpw : p = work_file_path q
        · exact hpw
        · exact absurd (by simp [fsSet, hpw]) hch
  | createDoc q =>
      unfold runTool create_document setup_working_file at hch
      dsimp only at hch
      have hqq : fsSet f q { objects := [], recomputeRaises := false } q =
          some { objects := [], recomputeRaises := false } := by
        simp [fsSet]
      rw [hqq] at hch
      dsimp only at hch
      by_cases hpq : p = q
      · exact Or.inl hpq
      by_cases hpw : p = work_file_path q
      · exact Or.inr hpw
      · exact absurd (by simp [fsSet, hpq, hpw]) hch
  | commitCall =>
      unfold runTool commit_changes at hch
      unfold writeTarget
      rcases mp with _ | m
      · exact absurd rfl hch
      rcases wp with _ | w
      · exact absurd rfl hch
      rcases ac with _ | ad
      · exact absurd rfl hch
      obtain ⟨hwp, hfn⟩ := hinv ad rfl
      obtain ⟨fn, d⟩ := ad
      dsimp only at hch hfn ⊢
      rcases fn with _ | pf
      · exact absurd hfn (by simp)
      have hpfw : pf = w := Option.some.inj hfn
      subst hpfw
      by_cases hv : (VALIDATE_BEFORE_COMMIT && !validate_document d) = true
      · rw [if_pos hv] at hch
        exact absurd rfl hch
      · rw [if_neg hv] at hch
        dsimp only at hch
        rcases hcw : fsSet f pf d pf with _ | dw
        · rw [hcw] at hch
          by_cases hpp : p = pf
          · exact Or.inl (by rw [hpp])
          · exact absurd (by simp [fsSet, hpp]) hch
        · rw [hcw] at hch
          dsimp only at hch
          by_cases hpm : p = m
          · refine Or.inr ⟨?_, by rw [hpm]⟩
            unfold commitOk commit_changes
            dsimp only
            rw [if_neg hv, hcw]
          · by_cases hpp : p = pf
            · exact Or.inl (by rw [hpp])
            · exact absurd (by simp [fsSet, hpp, hpm]) hch
  | rollbackCall =>
      unfold runTool rollback_working_changes at hch
      unfold writeTarget
      rcases mp with _ | m
      · exact absurd rfl hch
      rcases wp with _ | w
      · exact absurd rfl hch
      rcases ac with _ | ad
      · exact absurd rfl hch
      dsimp only at hch ⊢
      rcases hfm : f m with _ | dm
      · rw [hfm] at hch
        exact absurd rfl hch
      · rw [hfm] at hch
        dsimp only at hch
        by_cases hpw : p = w
        · rw [hpw]
        · exact absurd (by simp [fsSet, hpw]) hch
  | infoCall =>
      unfold runTool get_document_info at hch
      rcases ac with _ | ad <;> dsimp only at hch <;> exact absurd rfl hch
  | execCall eff op =>
      unfold runTool exec_tool at hch
      unfold writeTarget
      rcases ac with _ | ad
      · dsimp only at hch
        split at hch <;> exact absurd rfl hch
      · obtain ⟨hwp, hfn⟩ := hinv ad rfl
        obtain ⟨fn, d0⟩ := ad
        dsimp only [Option.map] at hch hfn ⊢
        rcases wp with _ | w
        · exact absurd rfl hwp
        rcases fn with _ | pf
        · exact absurd hfn (by simp)
        have hpfw : pf = w := Option.some.inj hfn
        subst hpfw
        obtain ⟨d1, hd1⟩ := execute_operation_active_some eff d0 op
        rw [hd1] at hch
        dsimp only at hch
        split at hch
        · dsimp only at hch
          by_cases hpw : p = pf
          · rw [hpw]
          · exact absurd (by simp [fsSet, hpw]) hch
        · exact absurd rfl hch

/-- Witness for the write-confinement theorem: a concrete rollback changes
only the session working path. -/
theorem tool_canonical_write_confinement_witness :
    writeTarget .rollbackCall stInvalidCommit "a.FCStd.work" :=
  tool_canonical_write_confinement .rollbackCall stInvalidCommit "a.FCStd.work"
    (fun ad h => by
      obtain rfl : { fileName := some "a.FCStd.work", doc := docEmptyK } = ad :=
        Option.some.inj h
      exact ⟨fun hcon => Option.noConfusion hcon, rfl⟩)
    (by decide)
